import Mathlib

/-!
Verification of the galaxy effective-radius script (`etkin-yaricap-galaxy.py`).

The script is a linear pipeline: resolve an object name to coordinates,
fetch a survey image, square-root-stretch it, compute two contour levels,
fit isophotes, select the first isophote whose mean intensity lies strictly
between the two levels, and report its semi-major axis.

External library calls (Simbad catalog query, SkyView image fetch, the
photutils isophote fitter, matplotlib rendering) are black boxes: the
embedding parametrises over their results (the result table, the image
list, the fitted isophote list) and models only the script's own logic.
Python floats are modelled as rationals where the logic is order/arithmetic
comparisons, and as reals where `np.sqrt` and trigonometry are involved.
A Python `IndexError` on an empty sequence is modelled by `Option.none`.
-/

namespace GalaxyScript

/-- One fitted isophote, as consumed by the selection loop of
`fit_and_plot_ellipse`: the fitter's `iso.intens` (mean intensity) and
`iso.sma` (semi-major-axis length). -/
structure Isophote (α : Type) where
  intens : α
  sma : α
  deriving DecidableEq, Repr

/-- The selection loop of `fit_and_plot_ellipse` (lines 43-57): scan the
fitted isophote list in order; on the first isophote with
`contour_levels[0] < iso.intens < contour_levels[1]` return `iso.sma`;
if the loop ends without a match return `None`.  The two contour levels
are passed as the pair `(levels.1, levels.2)` since the source indexes
exactly positions 0 and 1. -/
def fit_and_plot_ellipse {α : Type} [LinearOrder α]
    (levels : α × α) : List (Isophote α) → Option α
  | [] => none
  | iso :: rest =>
    if levels.1 < iso.intens ∧ iso.intens < levels.2 then
      some iso.sma
    else
      fit_and_plot_ellipse levels rest

/-- The band condition of line 44, as a Boolean predicate. -/
def inBand {α : Type} [LinearOrder α] (levels : α × α) (iso : Isophote α) : Bool :=
  decide (levels.1 < iso.intens) && decide (iso.intens < levels.2)

/-- `fit_and_plot_ellipse` maps the first band-satisfying isophote to its
semi-major axis: helper characterisation via `List.find?`. -/
theorem fit_eq_find {α : Type} [LinearOrder α]
    (levels : α × α) (isolist : List (Isophote α)) :
    fit_and_plot_ellipse levels isolist =
      (isolist.find? (inBand levels)).map Isophote.sma := by
  induction isolist with
  | nil => rfl
  | cons iso rest ih =>
    by_cases h : levels.1 < iso.intens ∧ iso.intens < levels.2
    · simp [fit_and_plot_ellipse, h, List.find?, inBand, h.1, h.2]
    · rw [Decidable.not_and_iff_or_not] at h
      rcases h with h | h
      · simp [fit_and_plot_ellipse, List.find?, inBand, h, ih,
          not_and_of_not_left _ h]
      · simp [fit_and_plot_ellipse, List.find?, inBand, h, ih,
          not_and_of_not_right _ h]

/-- C1: `fit_and_plot_ellipse` returns the semi-major axis of the FIRST
isophote whose mean intensity lies strictly between the two contour
levels; in particular for intensities `[0.5, 1.5, 2.5, 3.5]` and levels
`(1.0, 3.0)` the second isophote is selected and its semi-major axis is
returned, whatever the semi-major axes are. -/
theorem c1_first_in_band_selected :
    (∀ (α : Type) (_ : LinearOrder α) (levels : α × α)
        (isolist : List (Isophote α)),
      fit_and_plot_ellipse levels isolist =
        (isolist.find? (inBand levels)).map Isophote.sma) ∧
    (∀ s0 s1 s2 s3 : ℚ,
      fit_and_plot_ellipse ((1 : ℚ), (3 : ℚ))
        [⟨0.5, s0⟩, ⟨1.5, s1⟩, ⟨2.5, s2⟩, ⟨3.5, s3⟩] = some s1) := by
  constructor
  · intro α _ levels isolist
    exact fit_eq_find levels isolist
  · intro s0 s1 s2 s3
    norm_num [fit_and_plot_ellipse]

/-- The stretch transform of line 29: `np.sqrt(data + 1)` applied to one
intensity sample. -/
noncomputable def stretch (d : ℝ) : ℝ := Real.sqrt (d + 1)

/-- Element-wise stretch of the image, modelled on the flattened pixel
list: `sqrt_data = np.sqrt(data + 1)`. -/
noncomputable def stretchImage (data : List ℝ) : List ℝ := data.map stretch

/-- `np.min` over the (flattened, nonempty) pixel list.  `np.min` raises
on an empty array; the `[]` case is junk and never reached for an image. -/
def listMin : List ℝ → ℝ
  | [] => 0
  | x :: xs => xs.foldl min x

/-- `np.max` over the (flattened, nonempty) pixel list, as `listMin`. -/
def listMax : List ℝ → ℝ
  | [] => 0
  | x :: xs => xs.foldl max x

/-- `np.linspace(a, b, n)`: `n` evenly spaced samples from `a` to `b`
inclusive, the `i`-th being `a + (b - a) * i / (n - 1)`. -/
noncomputable def linspace (a b : ℝ) (n : ℕ) : List ℝ :=
  (List.range n).map (fun i => a + (b - a) * i / (n - 1))

/-- The level computation of lines 32-33:
`levels = np.linspace(min_val, max_val, 4)[1:-1]`, i.e. the 4-point
linspace between the min and max of the stretched data with the first and
last entries discarded. -/
noncomputable def contourLevels (sqrt_data : List ℝ) : List ℝ :=
  ((linspace (listMin sqrt_data) (listMax sqrt_data) 4).drop 1).dropLast

/-- `plot_image_and_contours` (lines 28-35), reduced to its data content:
it returns the stretched array and the contour levels (the rendering
calls are display-only). -/
noncomputable def plot_image_and_contours (data : List ℝ) : List ℝ × List ℝ :=
  (stretchImage data, contourLevels (stretchImage data))

/-- The 4-point linspace evaluates to the explicit list
`[a, a + (b-a)/3, a + 2(b-a)/3, b]`. -/
theorem linspace_four (a b : ℝ) :
    linspace a b 4 = [a, a + (b - a) / 3, a + (b - a) * 2 / 3, b] := by
  simp only [linspace, List.range_succ, List.range_zero, List.map_append,
    List.map_cons, List.map_nil, List.nil_append, List.cons_append]
  norm_num

/-- C2: for every input image, the contour levels computed by
`plot_image_and_contours` are exactly the two interior values of the
4-point even spacing between the minimum and the maximum of the
stretched data, the first (the minimum) and last (the maximum) entries
being discarded. -/
theorem c2_levels_are_interior_of_linspace (data : List ℝ) :
    ∃ l0 l1 : ℝ,
      linspace (listMin (stretchImage data)) (listMax (stretchImage data)) 4 =
        [listMin (stretchImage data), l0, l1, listMax (stretchImage data)] ∧
      (plot_image_and_contours data).2 = [l0, l1] := by
  refine ⟨listMin (stretchImage data) +
      (listMax (stretchImage data) - listMin (stretchImage data)) / 3,
    listMin (stretchImage data) +
      (listMax (stretchImage data) - listMin (stretchImage data)) * 2 / 3,
    linspace_four _ _, ?_⟩
  simp [plot_image_and_contours, contourLevels, linspace_four]

/-- C3: when the stretched data is non-constant (`min < max`), the
contour level list has exactly two entries, they are strictly
increasing, and both lie strictly inside the open interval
`(min, max)`. -/
theorem c3_levels_strictly_inside (data : List ℝ)
    (h : listMin (stretchImage data) < listMax (stretchImage data)) :
    (contourLevels (stretchImage data)).length = 2 ∧
    ∃ l0 l1 : ℝ, contourLevels (stretchImage data) = [l0, l1] ∧
      l0 < l1 ∧
      listMin (stretchImage data) < l0 ∧
      l1 < listMax (stretchImage data) := by
  have hlev : contourLevels (stretchImage data) =
      [listMin (stretchImage data) +
        (listMax (stretchImage data) - listMin (stretchImage data)) / 3,
       listMin (stretchImage data) +
        (listMax (stretchImage data) - listMin (stretchImage data)) * 2 / 3] := by
    simp [contourLevels, linspace_four]
  refine ⟨by rw [hlev]; rfl, _, _, hlev, ?_, ?_, ?_⟩
  · have := sub_pos.mpr h
    linarith
  · have := sub_pos.mpr h
    linarith
  · have := sub_pos.mpr h
    linarith

/-- Witness for C3 at the concrete image `[0, 3]`: its stretched data is
`[1, 2]`, so min `1` is less than max `2` and the theorem applies. -/
theorem c3_levels_strictly_inside_witness :
    listMin (stretchImage [0, 3]) < listMax (stretchImage [0, 3]) ∧
    ((contourLevels (stretchImage [0, 3])).length = 2 ∧
     ∃ l0 l1 : ℝ, contourLevels (stretchImage [0, 3]) = [l0, l1] ∧
       l0 < l1 ∧
       listMin (stretchImage [0, 3]) < l0 ∧
       l1 < listMax (stretchImage [0, 3])) := by
  have h1 : stretch 0 = 1 := by
    simp [stretch, Real.sqrt_one]
  have h2 : stretch 3 = 2 := by
    rw [stretch, show (3 : ℝ) + 1 = 2 ^ 2 by norm_num, Real.sqrt_sq]
    norm_num
  have h : listMin (stretchImage [0, 3]) < listMax (stretchImage [0, 3]) := by
    simp [stretchImage, listMin, listMax, h1, h2]
  exact ⟨h, c3_levels_strictly_inside [0, 3] h⟩

/-- C5: the stretch transform is domain-safe and strictly monotonic on
non-negative inputs: `sqrt(d+1) ≥ 1` for `d ≥ 0`, and
`d1 < d2 → sqrt(d1+1) < sqrt(d2+1)` for non-negative `d1, d2`. -/
theorem c5_stretch_monotone_domain_safe :
    (∀ d : ℝ, 0 ≤ d → 1 ≤ stretch d) ∧
    (∀ d1 d2 : ℝ, 0 ≤ d1 → 0 ≤ d2 → d1 < d2 → stretch d1 < stretch d2) := by
  constructor
  · intro d hd
    have h1 : (1 : ℝ) = Real.sqrt 1 := (Real.sqrt_one).symm
    rw [stretch, h1]
    exact Real.sqrt_le_sqrt (by linarith)
  · intro d1 d2 h1 _ hlt
    exact Real.sqrt_lt_sqrt (by linarith) (by linarith)

/-- Witness for C5 at `d = 0` and the pair `(0, 3)`. -/
theorem c5_stretch_monotone_domain_safe_witness :
    1 ≤ stretch 0 ∧ stretch 0 < stretch 3 :=
  ⟨c5_stretch_monotone_domain_safe.1 0 le_rfl,
   c5_stretch_monotone_domain_safe.2 0 3 le_rfl (by norm_num) (by norm_num)⟩

/-- Python truthiness of the value `main` tests with `if radius:`
(line 79): `None` is falsy, a numeric zero is falsy, any other number is
truthy. -/
def pyTruthy : Option ℚ → Bool
  | none => false
  | some r => decide (r ≠ 0)

/-- The `{radius:.2f}` rendering of line 80: the radius rounded to two
decimal places and printed with exactly two fractional digits. -/
def formatFixed2 (r : ℚ) : String :=
  let n : ℤ := round (r * 100)
  let frac := (n % 100).toNat
  toString (n / 100) ++ "." ++
    (if frac < 10 then "0" ++ toString frac else toString frac)

/-- The console report of lines 79-82: the radius line when `radius` is
truthy, otherwise the fixed failure sentence. -/
def mainReport (radius : Option ℚ) : String :=
  if pyTruthy radius then
    "Radius of the ellipse in the blue region: " ++
      formatFixed2 (radius.getD 0) ++ " pixels"
  else
    "Could not determine the ellipse radius."

/-- C4: when no isophote satisfies the strict band condition,
`fit_and_plot_ellipse` returns the absent value and the console output is
exactly the fixed failure string. -/
theorem c4_no_match_failure_message (levels : ℚ × ℚ)
    (isolist : List (Isophote ℚ))
    (h : ∀ iso ∈ isolist, ¬(levels.1 < iso.intens ∧ iso.intens < levels.2)) :
    fit_and_plot_ellipse levels isolist = none ∧
    mainReport (fit_and_plot_ellipse levels isolist) =
      "Could not determine the ellipse radius." := by
  have hnone : fit_and_plot_ellipse levels isolist = none := by
    rw [fit_eq_find]
    have : isolist.find? (inBand levels) = none := by
      rw [List.find?_eq_none]
      intro iso hmem hband
      simp only [inBand, Bool.and_eq_true, decide_eq_true_eq] at hband
      exact h iso hmem hband
    rw [this]
    rfl
  exact ⟨hnone, by rw [hnone]; rfl⟩

/-- Witness for C4: levels `(1, 3)` and a single isophote of intensity
`3.5`, which is outside the band. -/
theorem c4_no_match_failure_message_witness :
    (∀ iso ∈ ([⟨3.5, 10⟩] : List (Isophote ℚ)),
      ¬(((1 : ℚ), (3 : ℚ)).1 < iso.intens ∧ iso.intens < ((1 : ℚ), (3 : ℚ)).2)) ∧
    (fit_and_plot_ellipse ((1 : ℚ), (3 : ℚ)) [⟨3.5, 10⟩] = none ∧
     mainReport (fit_and_plot_ellipse ((1 : ℚ), (3 : ℚ)) [⟨3.5, 10⟩]) =
       "Could not determine the ellipse radius.") := by
  have h : ∀ iso ∈ ([⟨3.5, 10⟩] : List (Isophote ℚ)),
      ¬(((1 : ℚ), (3 : ℚ)).1 < iso.intens ∧ iso.intens < ((1 : ℚ), (3 : ℚ)).2) := by
    intro iso hmem
    simp at hmem
    subst hmem
    norm_num
  exact ⟨h, c4_no_match_failure_message ((1 : ℚ), (3 : ℚ)) [⟨3.5, 10⟩] h⟩

/-- C6: the radius line is gated by Python truthiness of the returned
value, not by whether an isophote was selected: the failure sentence is
printed exactly when the value is falsy, and for an isophote list whose
first band-qualifying isophote has semi-major axis `0`, the fitter
returns `some 0` (a successful selection) yet the printed output is the
failure sentence. -/
theorem c6_truthiness_gates_radius_line :
    (∀ radius : Option ℚ,
      (mainReport radius = "Could not determine the ellipse radius." ↔
        pyTruthy radius = false)) ∧
    (fit_and_plot_ellipse ((1 : ℚ), (3 : ℚ)) [⟨2, 0⟩] = some 0 ∧
     mainReport (fit_and_plot_ellipse ((1 : ℚ), (3 : ℚ)) [⟨2, 0⟩]) =
       "Could not determine the ellipse radius.") := by
  constructor
  · intro radius
    match radius with
    | none => simp [mainReport, pyTruthy]
    | some r =>
      by_cases hr : r = 0
      · subst hr
        simp [mainReport, pyTruthy]
      · have ht : pyTruthy (some r) = true := by simp [pyTruthy, hr]
        simp only [mainReport, ht, if_true, Bool.true_eq_false, iff_false]
        intro hco
        have hlen := congrArg String.length hco
        simp only [String.length_append] at hlen
        have hA : ("Radius of the ellipse in the blue region: ").length
            = 42 := rfl
        have hB : (" pixels").length = 7 := rfl
        have hC : ("Could not determine the ellipse radius.").length
            = 39 := rfl
        omega
  · have hfit : fit_and_plot_ellipse ((1 : ℚ), (3 : ℚ)) [⟨2, 0⟩]
        = some 0 := by
      norm_num [fit_and_plot_ellipse]
    exact ⟨hfit, by rw [hfit]; simp [mainReport, pyTruthy]⟩

/-- The stretch of a pixel of intensity `3` is `sqrt 4 = 2`. -/
theorem stretch_three_eq_two : stretch 3 = 2 := by
  rw [stretch, show (3 : ℝ) + 1 = 2 ^ 2 by norm_num, Real.sqrt_sq]
  norm_num

/-- C7: for a constant-intensity image (stretched min = max) the level
computation does not fail: the 4-point linspace collapses to four equal
values, the kept pair is two equal levels, the strict band is empty so no
isophote qualifies, `fit_and_plot_ellipse` returns `None`, and the report
for the absent value is the fixed failure message. -/
theorem c7_flat_image_graceful (data : List ℝ)
    (isolist : List (Isophote ℝ))
    (h : listMin (stretchImage data) = listMax (stretchImage data)) :
    linspace (listMin (stretchImage data)) (listMax (stretchImage data)) 4 =
      [listMin (stretchImage data), listMin (stretchImage data),
       listMin (stretchImage data), listMin (stretchImage data)] ∧
    contourLevels (stretchImage data) =
      [listMin (stretchImage data), listMin (stretchImage data)] ∧
    fit_and_plot_ellipse
      (listMin (stretchImage data), listMin (stretchImage data)) isolist
      = none ∧
    mainReport none = "Could not determine the ellipse radius." := by
  refine ⟨?_, ?_, ?_, rfl⟩
  · rw [← h, linspace_four]
    norm_num
  · rw [contourLevels, ← h, linspace_four]
    norm_num
  · rw [fit_eq_find]
    have hfind : isolist.find?
        (inBand (listMin (stretchImage data), listMin (stretchImage data)))
        = none := by
      rw [List.find?_eq_none]
      intro iso _ hband
      simp only [inBand, Bool.and_eq_true, decide_eq_true_eq] at hband
      exact absurd (hband.1.trans hband.2) (lt_irrefl _)
    rw [hfind]
    rfl

/-- Witness for C7 at the constant image `[3, 3]` (stretched to `[2, 2]`)
and a one-isophote list. -/
theorem c7_flat_image_graceful_witness :
    listMin (stretchImage [3, 3]) = listMax (stretchImage [3, 3]) ∧
    (linspace (listMin (stretchImage [3, 3])) (listMax (stretchImage [3, 3])) 4 =
      [listMin (stretchImage [3, 3]), listMin (stretchImage [3, 3]),
       listMin (stretchImage [3, 3]), listMin (stretchImage [3, 3])] ∧
     contourLevels (stretchImage [3, 3]) =
      [listMin (stretchImage [3, 3]), listMin (stretchImage [3, 3])] ∧
     fit_and_plot_ellipse
       (listMin (stretchImage [3, 3]), listMin (stretchImage [3, 3]))
       [(⟨1, 5⟩ : Isophote ℝ)] = none ∧
     mainReport none = "Could not determine the ellipse radius.") := by
  have h : listMin (stretchImage [3, 3]) = listMax (stretchImage [3, 3]) := by
    simp [stretchImage, listMin, listMax, stretch_three_eq_two]
  exact ⟨h, c7_flat_image_graceful [3, 3] [⟨1, 5⟩] h⟩

/-- The ellipse geometry seed of line 39: the photutils `EllipseGeometry`
constructor arguments.  `x0`/`y0` are the pixel center coordinates,
`sma` the starting semi-major axis, `eps` the ellipticity, `pa` the
position angle. -/
structure EllipseGeometry where
  x0 : ℕ
  y0 : ℕ
  sma : ℚ
  eps : ℚ
  pa : ℚ
  deriving DecidableEq, Repr

/-- Lines 38-39 of `fit_and_plot_ellipse`:
`center = np.array(data.shape) // 2` and
`EllipseGeometry(x0=center[1], y0=center[0], sma=20, eps=0.1, pa=45)`.
`shape` is `(rows, cols)`, so `center = (rows / 2, cols / 2)` with
integer division, `x0 = center[1]` the column index and
`y0 = center[0]` the row index. -/
def seedGeometry (shape : ℕ × ℕ) : EllipseGeometry :=
  { x0 := shape.2 / 2, y0 := shape.1 / 2, sma := 20, eps := 0.1, pa := 45 }

/-- C8: for every image shape, the seeded geometry sits at the
integer-divided center pixel (`x0` the column index, `y0` the row
index), with semi-major axis `20`, ellipticity `0.1` and position angle
`45`. -/
theorem c8_seed_geometry_constants (shape : ℕ × ℕ) :
    (seedGeometry shape).x0 = shape.2 / 2 ∧
    (seedGeometry shape).y0 = shape.1 / 2 ∧
    (seedGeometry shape).sma = 20 ∧
    (seedGeometry shape).eps = 0.1 ∧
    (seedGeometry shape).pa = 45 :=
  ⟨rfl, rfl, rfl, rfl, rfl⟩

/-- One FITS HDU returned by the image service: a pixel array and a
header (the header is opaque to the script except for being handed to
the external `WCS` constructor, so it is carried as-is). -/
structure FitsHDU where
  data : List (List ℚ)
  header : String
  deriving DecidableEq, Repr

/-- `get_object_coordinates` (lines 10-13), with the external Simbad
query result passed in as a list of `(RA, DEC)` string rows:
`result_table["RA"][0]` and `result_table["DEC"][0]` take the first
row's fields; the `IndexError` raised on an empty table is modelled as
`none`; the external `SkyCoord` parse receives the f-string
`"{ra} {dec}"`, modelled as that concatenation. -/
def get_object_coordinates (result_table : List (String × String)) :
    Option String :=
  match result_table with
  | [] => none
  | row :: _ => some (row.1 ++ " " ++ row.2)

/-- `get_image_data` (lines 15-17), with the external SkyView result
passed in as a list of HDU lists: `image_list[0][0]` takes the first
HDU of the first returned image; the `IndexError` on an empty list is
modelled as `none`; the external `WCS(header)` construction is modelled
by carrying the header through. -/
def get_image_data (image_list : List (List FitsHDU)) :
    Option (List (List ℚ) × String) :=
  match image_list with
  | [] => none
  | hdus :: _ =>
    match hdus with
    | [] => none
    | hdu :: _ => some (hdu.data, hdu.header)

/-- C9: both wrappers use only the first element of the external result:
the output is determined by the head row / head image alone, and an
empty result propagates as the failing (absent) value with no
recovery. -/
theorem c9_wrappers_use_only_first :
    (get_object_coordinates [] = none) ∧
    (∀ (row : String × String) (rest rest2 : List (String × String)),
      get_object_coordinates (row :: rest) =
        get_object_coordinates (row :: rest2) ∧
      get_object_coordinates (row :: rest) = some (row.1 ++ " " ++ row.2)) ∧
    (get_image_data [] = none) ∧
    (∀ (hdu : FitsHDU) (hdus hdus2 : List FitsHDU)
        (rest rest2 : List (List FitsHDU)),
      get_image_data ((hdu :: hdus) :: rest) =
        get_image_data ((hdu :: hdus2) :: rest2) ∧
      get_image_data ((hdu :: hdus) :: rest) =
        some (hdu.data, hdu.header)) :=
  ⟨rfl, fun _ _ _ => ⟨rfl, rfl⟩, rfl, fun _ _ _ _ _ => ⟨rfl, rfl⟩⟩

/-- `np.deg2rad`: degrees to radians. -/
noncomputable def deg2rad (d : ℝ) : ℝ := d * (Real.pi / 180)

/-- Lines 50-53: the semi-major-axis ray endpoint,
`(center[1] + radius * cos(deg2rad 50), center[0] + radius * sin(deg2rad 50))`
with `center = (row, col)`. -/
noncomputable def semiMajorEndpoint (center : ℕ × ℕ) (radius : ℝ) : ℝ × ℝ :=
  (center.2 + radius * Real.cos (deg2rad 50),
   center.1 + radius * Real.sin (deg2rad 50))

/-- Line 54: the drawn segment
`ax.plot([center[1], end_x - 1.5], [center[0], end_y - 1.5])`: start
point the unmodified center (as `(x, y)`), far point the ray endpoint
shifted by `-1.5` in each axis. -/
noncomputable def semiMajorSegment (center : ℕ × ℕ) (radius : ℝ) :
    (ℝ × ℝ) × (ℝ × ℝ) :=
  (((center.2 : ℝ), (center.1 : ℝ)),
   ((semiMajorEndpoint center radius).1 - 1.5,
    (semiMajorEndpoint center radius).2 - 1.5))

/-- C10: on a successful selection the ray endpoint is
`center + sma * (cos 50°, sin 50°)` (angle in radians via `deg2rad`),
the drawn segment starts at the unmodified center and ends at the ray
endpoint offset by `-1.5` in each axis, and the returned radius is the
selected isophote's semi-major axis. -/
theorem c10_ray_segment_and_radius (center : ℕ × ℕ)
    (l0 l1 : ℚ) (iso : Isophote ℚ) (rest : List (Isophote ℚ))
    (h : l0 < iso.intens ∧ iso.intens < l1) :
    semiMajorEndpoint center (iso.sma : ℝ) =
      ((center.2 : ℝ) + (iso.sma : ℝ) * Real.cos (50 * Real.pi / 180),
       (center.1 : ℝ) + (iso.sma : ℝ) * Real.sin (50 * Real.pi / 180)) ∧
    (semiMajorSegment center (iso.sma : ℝ)).1 =
      ((center.2 : ℝ), (center.1 : ℝ)) ∧
    (semiMajorSegment center (iso.sma : ℝ)).2 =
      ((semiMajorEndpoint center (iso.sma : ℝ)).1 - 1.5,
       (semiMajorEndpoint center (iso.sma : ℝ)).2 - 1.5) ∧
    fit_and_plot_ellipse (l0, l1) (iso :: rest) = some iso.sma := by
  refine ⟨?_, rfl, rfl, ?_⟩
  · rw [semiMajorEndpoint, deg2rad]
    rw [mul_div_assoc]
  · rw [fit_and_plot_ellipse, if_pos h]

/-- Witness for C10: center `(64, 64)`, levels `(1, 3)`, one isophote of
intensity `2` and semi-major axis `7`. -/
theorem c10_ray_segment_and_radius_witness :
    ((1 : ℚ) < 2 ∧ (2 : ℚ) < 3) ∧
    (semiMajorEndpoint (64, 64) ((7 : ℚ) : ℝ) =
      (((64 : ℕ) : ℝ) + ((7 : ℚ) : ℝ) * Real.cos (50 * Real.pi / 180),
       ((64 : ℕ) : ℝ) + ((7 : ℚ) : ℝ) * Real.sin (50 * Real.pi / 180)) ∧
     (semiMajorSegment (64, 64) ((7 : ℚ) : ℝ)).1 =
      (((64 : ℕ) : ℝ), ((64 : ℕ) : ℝ)) ∧
     (semiMajorSegment (64, 64) ((7 : ℚ) : ℝ)).2 =
      ((semiMajorEndpoint (64, 64) ((7 : ℚ) : ℝ)).1 - 1.5,
       (semiMajorEndpoint (64, 64) ((7 : ℚ) : ℝ)).2 - 1.5) ∧
     fit_and_plot_ellipse ((1 : ℚ), (3 : ℚ)) [⟨2, 7⟩] = some 7) := by
  have h : (1 : ℚ) < 2 ∧ (2 : ℚ) < 3 := by norm_num
  exact ⟨h, c10_ray_segment_and_radius (64, 64) 1 3 ⟨2, 7⟩ [] h⟩

end GalaxyScript
